import Mathlib

/-!
Shallow embedding of the credential lifecycle manager and API gateway wrapper
of `src/core/open/client.go` (package `open`, type `Client`).

Modelling conventions:
- Go dynamic JSON values (`map[string]interface{}`) are modelled by `JVal` and
  association lists `JObj`.  Numbers are modelled by one integer constructor
  `JVal.n`: the Go code writes `expires_in` as `int64` and reads it back as
  `float64` after a JSON round trip; both sides denote the same number.
  Per the design notes, response envelopes are open string-keyed maps with an
  integer-typed error-code field (`util.JsonUnmarshalBytes` lives outside the
  embedded file; it is modelled as the identity on already-parsed objects).
- The cache (`core.Cache`) is modelled as a deterministic in-memory store
  `St`: `Exists` is key membership, `Get` succeeds exactly when the key is
  present (a missing key yields the store not-found error), `SetEx` always
  succeeds and records the TTL alongside the value.
- The transport (`core.HttpClient.Post`) is a pure function of the request,
  returning a status code, a parsed body and an optional transport error.
  Go errors are modelled as their message strings (`Option String`, `none`
  meaning the nil error).
- `time.Now().Unix()` is the frozen per-call timestamp `Env.now`.
- A failed Go type assertion (or indexing a nil map followed by an assertion)
  is a runtime panic; a function that can panic returns an `Option`, with
  `none` the panic outcome.
- Each operation returns an `Eff`: the Go return tuple, the cache state after
  the call, and the ordered list of outbound HTTP requests it issued.
- Calls to the sentry error-reporting side channel are side effects with no
  bearing on results or state and are not modelled.
-/

namespace GoWechat

/-- Dynamic JSON-like value: string, integer number, Go nil interface, or a
nested string-keyed object. -/
inductive JVal where
  | s (v : String)
  | n (v : Int)
  | null
  | o (fields : List (String × JVal))

/-- A string-keyed object, as an association list (first binding wins). -/
abbrev JObj := List (String × JVal)

/-- Lookup of a key in an object; `none` models an absent key (a Go map read
returning the nil interface via the comma-ok form). -/
def jGet : JObj → String → Option JVal
  | [], _ => none
  | (k, v) :: rest, key => if k = key then some v else jGet rest key

/-- Go map assignment `m[key] = v`: replace the binding in place, or append. -/
def jSet : JObj → String → JVal → JObj
  | [], key, v => [(key, v)]
  | (k, w) :: rest, key, v =>
    if k = key then (key, v) :: rest else (k, w) :: jSet rest key v

/-- Go map read `m[key]` without comma-ok: the nil interface when absent. -/
def jGetD (o : JObj) (key : String) : JVal := (jGet o key).getD JVal.null

/-- Source constant ComponentTicketCacheKeyPrefix. -/
def ComponentTicketCacheKey : String := "CACHE_TICKET@@"

/-- Source constant ComponentTokenCacheKeyPrefix. -/
def ComponentTokenCacheKey : String := "CACHE_COMPONENT@@"

/-- Source constant AuthorizerTokenCacheKeyPrefix. -/
def AuthorizerTokenCacheKey : String := "CACHE_AUTHORIZER_TOKEN@@"

/-- The cache: key, stored record, and the TTL it was stored with. -/
abbrev St := List (String × JObj × Int)

/-- Cache lookup (`Cache.Exists` is `(stFind st k).isSome`; `Cache.Get`
succeeds exactly on present keys). -/
def stFind : St → String → Option (JObj × Int)
  | [], _ => none
  | (k, v, t) :: rest, key => if k = key then some (v, t) else stFind rest key

/-- `Cache.SetEx key value ttl`: the new binding shadows any old one. -/
def stSetEx (st : St) (key : String) (v : JObj) (ttl : Int) : St :=
  (key, v, ttl) :: st

/-- An outbound HTTP POST request as handed to `HttpClient.Post`. -/
structure Req where
  url : String
  contentType : String
  body : JObj

/-- The transport result: status code, parsed response body, transport error. -/
structure TResp where
  status : Nat
  body : JObj
  err : Option String

/-- The `core.Endpoint` URL-builder collaborator, one field per endpoint used
by `client.go`; token-parameterised endpoints are functions of the token. -/
structure Endpoint where
  preAuthCodoUrl : String → String
  apiQueryAuthUrl : String → String
  apiAuthorizerToken : String → String
  componentAccessTokenUrl : String
  fastRegisterWeapp : String → String
  bindTester : String → String
  modifyDomain : String → String
  commitCode : String → String
  submitAudit : String → String
  release : String → String
  getWxaCode : String → String

/-- The ambient configuration of a `Client` call: integrator credentials, the
endpoint builder, the frozen timestamp and the transport oracle. -/
structure Env where
  appId : String
  appSecret : String
  endpoint : Endpoint
  now : Int
  transport : Req → TResp

/-- Result of one embedded operation: the Go return tuple `ret`, the cache
state after the call, and the outbound requests issued, in order. -/
structure Eff (α : Type) where
  ret : α
  st : St
  trace : List Req

/-- Cache key of the verification ticket for this integrator. -/
def componentTicketKey (env : Env) : String := ComponentTicketCacheKey ++ env.appId

/-- Cache key of the platform (component) token for this integrator. -/
def componentTokenKey (env : Env) : String := ComponentTokenCacheKey ++ env.appId

/-- Cache key of the authorizer token record for this integrator. -/
def authorizerTokenKey (env : Env) : String := AuthorizerTokenCacheKey ++ env.appId

/-- Embeds `getComponentTicket`: empty string on a cache miss, otherwise the
`component_verify_ticket` string field of the cached record (a non-string or
absent field is a failed `.(string)` assertion, i.e. a panic). -/
def getComponentTicket (env : Env) (st : St) : Option String :=
  match stFind st (componentTicketKey env) with
  | none => some ""
  | some (obj, _) =>
    match jGet obj "component_verify_ticket" with
    | some (JVal.s v) => some v
    | _ => none

/-- The platform-token mint request built by `getRawApiComponentToken`. -/
def componentMintReq (env : Env) (ticket : String) : Req :=
  ⟨env.endpoint.componentAccessTokenUrl, "application/json",
   [("component_appid", JVal.s env.appId),
    ("component_appsecret", JVal.s env.appSecret),
    ("component_verify_ticket", JVal.s ticket)]⟩

/-- Embeds `getRawApiComponentToken`.  On a transport error it returns
`(nil, err)` with no cache write.  On a non-200 status the source executes
`return nil, err` where `err` is already nil, so the model returns
`(none, none)` — nil record AND nil error — with no cache write.  On 200 it
stamps `expires_in = now + 7200` into the body and persists it under the
component-token key with a 7200-second TTL. -/
def getRawApiComponentToken (env : Env) (st : St) :
    Option (Eff (Option JObj × Option String)) :=
  match getComponentTicket env st with
  | none => none
  | some ticket =>
    let req := componentMintReq env ticket
    let r := env.transport req
    match r.err with
    | some e => some ⟨(none, some e), st, [req]⟩
    | none =>
      if r.status ≠ 200 then
        some ⟨(none, none), st, [req]⟩
      else
        let componentToken := jSet r.body "expires_in" (JVal.n (env.now + 7200))
        some ⟨(some componentToken, none),
              stSetEx st (componentTokenKey env) componentToken 7200, [req]⟩

/-- The mint continuation of `ApiComponentToken`: both the cache-miss branch
and the stale branch of the source run this identical block — call
`getRawApiComponentToken`, propagate a non-nil error, else extract the
`component_access_token` string (indexing a nil record and asserting
`.(string)` panics). -/
def componentMint (env : Env) (st : St) : Option (Eff (String × Option String)) :=
  match getRawApiComponentToken env st with
  | none => none
  | some eff =>
    match eff.ret.2 with
    | some e => some ⟨("", some e), eff.st, eff.trace⟩
    | none =>
      match eff.ret.1 with
      | none => none
      | some obj =>
        match jGet obj "component_access_token" with
        | some (JVal.s v) => some ⟨(v, none), eff.st, eff.trace⟩
        | _ => none

/-- Embeds `ApiComponentToken`: on a cache miss, mint; on a hit, read
`expires_in` (a `.(float64)` assertion) and mint when `now > expires_in`,
otherwise return the cached `component_access_token` with no outbound call. -/
def ApiComponentToken (env : Env) (st : St) :
    Option (Eff (String × Option String)) :=
  match stFind st (componentTokenKey env) with
  | none => componentMint env st
  | some (componentToken, _) =>
    match jGet componentToken "expires_in" with
    | some (JVal.n e) =>
      if env.now > e then componentMint env st
      else
        match jGet componentToken "component_access_token" with
        | some (JVal.s v) => some ⟨(v, none), st, []⟩
        | _ => none
    | _ => none

/-- The authorization-code exchange request built by `getRawApiQueryAuth`. -/
def queryAuthReq (env : Env) (token code : String) : Req :=
  ⟨env.endpoint.apiQueryAuthUrl token, "application/json",
   [("component_appid", JVal.s env.appId),
    ("authorization_code", JVal.s code)]⟩

/-- Embeds `getRawApiQueryAuth`: resolve a platform token, POST the exchange
request; a transport error or non-200 status is returned as an error with no
cache write; on 200 the nested `authorization_info` object is stamped with
`expires_in = now + 7200` and persisted under the authorizer-token key with a
7200-second TTL, while the returned value is a fresh parse of the whole body. -/
def getRawApiQueryAuth (env : Env) (st : St) (code : String) :
    Option (Eff (Option JObj × Option String)) :=
  match ApiComponentToken env st with
  | none => none
  | some eff =>
    match eff.ret.2 with
    | some e => some ⟨(none, some e), eff.st, eff.trace⟩
    | none =>
      let req := queryAuthReq env eff.ret.1 code
      let r := env.transport req
      match r.err with
      | some e => some ⟨(none, some e), eff.st, eff.trace ++ [req]⟩
      | none =>
        if r.status ≠ 200 then
          some ⟨(none, some "网络错误"), eff.st, eff.trace ++ [req]⟩
        else
          match jGet r.body "authorization_info" with
          | some (JVal.o info) =>
            let stamped := jSet info "expires_in" (JVal.n (env.now + 7200))
            some ⟨(some r.body, none),
                  stSetEx eff.st (authorizerTokenKey env) stamped 7200,
                  eff.trace ++ [req]⟩
          | _ => none

/-- Embeds `ApiQueryAuth`: on a cache miss under the authorizer-token key, or
when `now > expires_in` of the cached record, both source branches return
exactly the result pair of `getRawApiQueryAuth`; otherwise the cached record
is returned unchanged with no outbound call. -/
def ApiQueryAuth (env : Env) (st : St) (code : String) :
    Option (Eff (Option JObj × Option String)) :=
  match stFind st (authorizerTokenKey env) with
  | none => getRawApiQueryAuth env st code
  | some (authorizerToken, _) =>
    match jGet authorizerToken "expires_in" with
    | some (JVal.n e) =>
      if env.now > e then getRawApiQueryAuth env st code
      else some ⟨(some authorizerToken, none), st, []⟩
    | _ => none

/-- Embeds `GetToken`: a bare cache read of the authorizer-token record; a
missing key is the store not-found error; a present record is returned as-is,
with no expiry check and no outbound request. -/
def GetToken (env : Env) (st : St) : Eff (Option JObj × Option String) :=
  match stFind st (authorizerTokenKey env) with
  | none => ⟨(none, some "cache: key not found"), st, []⟩
  | some (obj, _) => ⟨(some obj, none), st, []⟩

/-- The authorizer-token refresh request built by `RefreshToken`. -/
def authorizerTokenReq (env : Env) (ptok authorizerAppId refreshToken : String) : Req :=
  ⟨env.endpoint.apiAuthorizerToken ptok, "application/json",
   [("component_appid", JVal.s env.appId),
    ("authorizer_appid", JVal.s authorizerAppId),
    ("authorizer_refresh_token", JVal.s refreshToken)]⟩

/-- Embeds `RefreshToken`: read the cached authorizer record (missing key is
the store not-found error), resolve a platform token, POST the refresh body;
a transport error or non-200 surfaces as an error; on 200 the cached record
is merged with the access and refresh tokens of the response body and
`expires_in = now + 7200`, persisted with a 7200-second TTL, and a fresh
parse of the body is returned. -/
def RefreshToken (env : Env) (st : St) (authorizerAppId refreshToken : String) :
    Option (Eff (Option JObj × Option String)) :=
  match stFind st (authorizerTokenKey env) with
  | none => some ⟨(none, some "cache: key not found"), st, []⟩
  | some (authorizerToken, _) =>
    match ApiComponentToken env st with
    | none => none
    | some eff =>
      match eff.ret.2 with
      | some e => some ⟨(none, some e), eff.st, eff.trace⟩
      | none =>
        let req := authorizerTokenReq env eff.ret.1 authorizerAppId refreshToken
        let r := env.transport req
        match r.err with
        | some e => some ⟨(none, some e), eff.st, eff.trace ++ [req]⟩
        | none =>
          if r.status ≠ 200 then
            some ⟨(none, some "网络错误"), eff.st, eff.trace ++ [req]⟩
          else
            let merged :=
              jSet (jSet (jSet authorizerToken
                "authorizer_access_token" (jGetD r.body "authorizer_access_token"))
                "authorizer_refresh_token" (jGetD r.body "authorizer_refresh_token"))
                "expires_in" (JVal.n (env.now + 7200))
            some ⟨(some r.body, none),
                  stSetEx eff.st (authorizerTokenKey env) merged 7200,
                  eff.trace ++ [req]⟩

/-- Embeds `ApiCreatePreAuthCode`: resolve a platform token, POST the
component appid, and return the `pre_auth_code` string of the 200 response
(absent or non-string is a failed `.(string)` assertion, i.e. a panic). -/
def ApiCreatePreAuthCode (env : Env) (st : St) :
    Option (Eff (String × Option String)) :=
  match ApiComponentToken env st with
  | none => none
  | some eff =>
    match eff.ret.2 with
    | some e => some ⟨("", some e), eff.st, eff.trace⟩
    | none =>
      let req : Req := ⟨env.endpoint.preAuthCodoUrl eff.ret.1, "application/json",
                        [("component_appid", JVal.s env.appId)]⟩
      let r := env.transport req
      match r.err with
      | some e => some ⟨("", some e), eff.st, eff.trace ++ [req]⟩
      | none =>
        if r.status ≠ 200 then
          some ⟨("", some "网络错误"), eff.st, eff.trace ++ [req]⟩
        else
          match jGet r.body "pre_auth_code" with
          | some (JVal.s v) => some ⟨(v, none), eff.st, eff.trace ++ [req]⟩
          | _ => none

/-- UTF-8 encoding of one character, as byte values (models the byte-level
operation of the Go standard library on strings). -/
def utf8Bytes (c : Char) : List Nat :=
  let v := c.toNat
  if v < 128 then [v]
  else if v < 2048 then [192 + v / 64, 128 + v % 64]
  else if v < 65536 then [224 + v / 4096, 128 + (v / 64) % 64, 128 + v % 64]
  else [240 + v / 262144, 128 + (v / 4096) % 64, 128 + (v / 64) % 64, 128 + v % 64]

/-- Uppercase hexadecimal digit of a value below 16. -/
def hexDigit (v : Nat) : Char :=
  if v < 10 then Char.ofNat (48 + v) else Char.ofNat (55 + v)

/-- Escaping of one byte under the query-component rules of Go `net/url`:
alphanumerics and `-` `_` `.` `~` kept, space becomes `+`, any other byte
becomes percent and two uppercase hex digits. -/
def escByte (b : Nat) : String :=
  if (65 ≤ b ∧ b ≤ 90) ∨ (97 ≤ b ∧ b ≤ 122) ∨ (48 ≤ b ∧ b ≤ 57)
      ∨ b = 45 ∨ b = 95 ∨ b = 46 ∨ b = 126 then
    String.singleton (Char.ofNat b)
  else if b = 32 then "+"
  else String.singleton (Char.ofNat 37)
    ++ String.singleton (hexDigit (b / 16)) ++ String.singleton (hexDigit (b % 16))

/-- Embeds `url.QueryEscape`: byte-level escaping of the UTF-8 encoding. -/
def queryEscape (str : String) : String :=
  ((str.data.flatMap utf8Bytes).map escByte).foldl (fun a b => a ++ b) ""

/-- Embeds `GetAuthUrl`: issue a pre-authorization code; on failure return the
empty string (the error is swallowed); on success format the consent redirect
URL with the three escaped components and the numeric auth type. -/
def GetAuthUrl (env : Env) (st : St) (redirectUri : String) (authType : Nat) :
    Option (Eff String) :=
  match ApiCreatePreAuthCode env st with
  | none => none
  | some eff =>
    match eff.ret.2 with
    | some _ => some ⟨"", eff.st, eff.trace⟩
    | none =>
      some ⟨"https://mp.weixin.qq.com/cgi-bin/componentloginpage?component_appid="
              ++ queryEscape env.appId
              ++ "&pre_auth_code=" ++ queryEscape eff.ret.1
              ++ "&redirect_uri=" ++ queryEscape redirectUri
              ++ "&auth_type=" ++ toString authType,
            eff.st, eff.trace⟩

/-- The shared shape of the platform-token gateway operations (`ModifyDomain`,
`CommitCode`, `SubmitAudit`, `UndoCodeAudit`, `Release`, `FastRegisterWeapp`):
resolve a platform token, POST the payload to the endpoint chosen by `urlOf`,
map a non-200 status to the network error, then read the integer `errcode`
field (a failed `.(int64)` assertion panics): non-zero yields the fixed
failure message `failMsg`, zero yields success (a nil error). -/
def gatewayOp (env : Env) (st : St) (urlOf : Endpoint → String → String)
    (failMsg : String) (data : JObj) : Option (Eff (Option String)) :=
  match ApiComponentToken env st with
  | none => none
  | some eff =>
    match eff.ret.2 with
    | some e => some ⟨some e, eff.st, eff.trace⟩
    | none =>
      let req : Req := ⟨urlOf env.endpoint eff.ret.1, "application/json", data⟩
      let r := env.transport req
      match r.err with
      | some e => some ⟨some e, eff.st, eff.trace ++ [req]⟩
      | none =>
        if r.status ≠ 200 then
          some ⟨some "网络错误", eff.st, eff.trace ++ [req]⟩
        else
          match jGet r.body "errcode" with
          | some (JVal.n c) =>
            if c ≠ 0 then some ⟨some failMsg, eff.st, eff.trace ++ [req]⟩
            else some ⟨none, eff.st, eff.trace ++ [req]⟩
          | _ => none

/-- Embeds `ModifyDomain`. -/
def ModifyDomain (env : Env) (st : St) (data : JObj) : Option (Eff (Option String)) :=
  gatewayOp env st (fun ep => ep.modifyDomain) "操作失败" data

/-- Embeds `CommitCode`. -/
def CommitCode (env : Env) (st : St) (data : JObj) : Option (Eff (Option String)) :=
  gatewayOp env st (fun ep => ep.commitCode) "操作失败" data

/-- Embeds `SubmitAudit`. -/
def SubmitAudit (env : Env) (st : St) (data : JObj) : Option (Eff (Option String)) :=
  gatewayOp env st (fun ep => ep.submitAudit) "操作失败" data

/-- Embeds `UndoCodeAudit`; note the source posts to `Endpoint.SubmitAudit`,
not to a distinct audit-withdraw endpoint. -/
def UndoCodeAudit (env : Env) (st : St) (data : JObj) : Option (Eff (Option String)) :=
  gatewayOp env st (fun ep => ep.submitAudit) "操作失败" data

/-- Embeds `Release`. -/
def Release (env : Env) (st : St) (data : JObj) : Option (Eff (Option String)) :=
  gatewayOp env st (fun ep => ep.release) "操作失败" data

/-- Embeds `FastRegisterWeapp` (its distinct failure message is 注册失败). -/
def FastRegisterWeapp (env : Env) (st : St) (data : JObj) : Option (Eff (Option String)) :=
  gatewayOp env st (fun ep => ep.fastRegisterWeapp) "注册失败" data

/-- Embeds `BindTester`: fetch the cached authorizer record via `GetToken`,
extract its `authorizer_access_token` string (a failed assertion panics),
POST the wechat id, then the same status and `errcode` handling as the other
gateway operations. -/
def BindTester (env : Env) (st : St) (wechatId : String) : Option (Eff (Option String)) :=
  let g := GetToken env st
  match g.ret.2 with
  | some e => some ⟨some e, g.st, g.trace⟩
  | none =>
    match g.ret.1 with
    | none => none
    | some tokenObj =>
      match jGet tokenObj "authorizer_access_token" with
      | some (JVal.s atok) =>
        let req : Req := ⟨env.endpoint.bindTester atok, "application/json",
                          [("wechatid", JVal.s wechatId)]⟩
        let r := env.transport req
        match r.err with
        | some e => some ⟨some e, g.st, g.trace ++ [req]⟩
        | none =>
          if r.status ≠ 200 then
            some ⟨some "网络错误", g.st, g.trace ++ [req]⟩
          else
            match jGet r.body "errcode" with
            | some (JVal.n c) =>
              if c ≠ 0 then some ⟨some "操作失败", g.st, g.trace ++ [req]⟩
              else some ⟨none, g.st, g.trace ++ [req]⟩
            | _ => none
      | _ => none

/-- Embeds `GetWxaCode`: fetch the cached authorizer record via `GetToken`,
extract its access token, POST the payload; a 200 response whose body has any
`errcode` key at all (the comma-ok form) is the fixed failure, otherwise the
raw body is returned. -/
def GetWxaCode (env : Env) (st : St) (data : JObj) :
    Option (Eff (Option JObj × Option String)) :=
  let g := GetToken env st
  match g.ret.2 with
  | some e => some ⟨(none, some e), g.st, g.trace⟩
  | none =>
    match g.ret.1 with
    | none => none
    | some tokenObj =>
      match jGet tokenObj "authorizer_access_token" with
      | some (JVal.s atok) =>
        let req : Req := ⟨env.endpoint.getWxaCode atok, "application/json", data⟩
        let r := env.transport req
        match r.err with
        | some e => some ⟨(none, some e), g.st, g.trace ++ [req]⟩
        | none =>
          if r.status ≠ 200 then
            some ⟨(none, some "网络错误"), g.st, g.trace ++ [req]⟩
          else
            match jGet r.body "errcode" with
            | some _ => some ⟨(none, some "操作失败"), g.st, g.trace ++ [req]⟩
            | none => some ⟨(some r.body, none), g.st, g.trace ++ [req]⟩
      | _ => none

/-! ## Helper lemmas about the object and store operations -/

theorem jGet_jSet_self (o : JObj) (k : String) (v : JVal) :
    jGet (jSet o k v) k = some v := by
  induction o with
  | nil => simp [jSet, jGet]
  | cons hd tl ih =>
    obtain ⟨a, b⟩ := hd
    by_cases hak : a = k
    · simp [jSet, jGet, hak]
    · simp [jSet, jGet, hak, ih]

theorem jGet_jSet_ne (o : JObj) (k1 k2 : String) (v : JVal) (h : k1 ≠ k2) :
    jGet (jSet o k1 v) k2 = jGet o k2 := by
  induction o with
  | nil => simp [jSet, jGet, h]
  | cons hd tl ih =>
    obtain ⟨a, b⟩ := hd
    by_cases hak : a = k1
    · subst hak
      simp [jSet, jGet, h]
    · by_cases hak2 : a = k2
      · simp [jSet, jGet, hak, hak2, Ne.symm h]
      · simp [jSet, jGet, hak, hak2, ih]

theorem stFind_stSetEx_self (st : St) (k : String) (v : JObj) (ttl : Int) :
    stFind (stSetEx st k v ttl) k = some (v, ttl) := by
  simp [stSetEx, stFind]

/-! ## Claim C1 -/

/-- A concrete expired authorizer record: its recorded expiry is 5 while the
ambient clock reads 100. -/
def recC1 : JObj :=
  [("authorizer_access_token", JVal.s "A-old"),
   ("authorizer_refresh_token", JVal.s "R-old"),
   ("expires_in", JVal.n 5)]

def envC1 : Env :=
  { appId := "app"
    appSecret := "sec"
    endpoint :=
      { preAuthCodoUrl := fun t => "u-pac/" ++ t
        apiQueryAuthUrl := fun t => "u-qa/" ++ t
        apiAuthorizerToken := fun t => "u-at/" ++ t
        componentAccessTokenUrl := "u-ct"
        fastRegisterWeapp := fun t => "u-frw/" ++ t
        bindTester := fun t => "u-bt/" ++ t
        modifyDomain := fun t => "u-md/" ++ t
        commitCode := fun t => "u-cc/" ++ t
        submitAudit := fun t => "u-sa/" ++ t
        release := fun t => "u-rel/" ++ t
        getWxaCode := fun t => "u-wxa/" ++ t }
    now := 100
    transport := fun _ => ⟨200, [], none⟩ }

def stC1 : St := [("CACHE_AUTHORIZER_TOKEN@@app", recC1, 7200)]

/-- Claim C1, counterexample: the cached authorizer record has recorded
expiry 5, the clock reads 100 (the expiry has passed), yet `GetToken` returns
the record exactly as cached, with an untouched store and an empty outbound
trace — no transparent refresh happens.  This refutes the claim that an
expired record is never returned as-is. -/
theorem getToken_expired_record_returned_asis :
    GetToken envC1 stC1 = ⟨(some recC1, none), stC1, []⟩
    ∧ jGet recC1 "expires_in" = some (JVal.n 5)
    ∧ envC1.now = 100
    ∧ (5 : Int) < 100 := by
  refine ⟨rfl, rfl, rfl, by decide⟩

/-- Claim C1, amended: `GetToken` performs no expiry check at all — whenever
the store holds an authorizer record, `GetToken` returns it unchanged, leaves
the store untouched and issues zero outbound requests, regardless of how its
recorded expiry compares to the current time; callers such as `BindTester`
and `GetWxaCode` therefore consume a possibly expired token. -/
theorem getToken_returns_cached_record_asis (env : Env) (st : St) (obj : JObj)
    (ttl : Int) (hfind : stFind st (authorizerTokenKey env) = some (obj, ttl)) :
    GetToken env st = ⟨(some obj, none), st, []⟩ := by
  unfold GetToken
  rw [hfind]

/-- Witness for the amended claim C1, at the concrete expired record. -/
theorem getToken_returns_cached_record_asis_witness :
    GetToken envC1 stC1 = ⟨(some recC1, none), stC1, []⟩ :=
  getToken_returns_cached_record_asis envC1 stC1 recC1 7200 rfl

/-! ## Claim C2 -/

/-- Under a ticket value, a 200 mint response with no transport error, and a
string access-token field, the mint branch stamps `expires_in = now + 7200`
into the body, persists it under the component-token key with TTL 7200, and
returns the access token after exactly one outbound request. -/
theorem componentMint_success (env : Env) (st : St) (t tok : String) (b : JObj)
    (ht : getComponentTicket env st = some t)
    (hresp : env.transport (componentMintReq env t) = ⟨200, b, none⟩)
    (htok : jGet b "component_access_token" = some (JVal.s tok)) :
    componentMint env st =
      some ⟨(tok, none),
            stSetEx st (componentTokenKey env)
              (jSet b "expires_in" (JVal.n (env.now + 7200))) 7200,
            [componentMintReq env t]⟩ := by
  unfold componentMint getRawApiComponentToken
  rw [ht]
  simp only [hresp]
  rw [if_neg (show ¬ ((200 : Nat) ≠ 200) by decide)]
  simp only [jGet_jSet_ne _ _ _ _
    (show ("expires_in" : String) ≠ "component_access_token" by decide), htok]

def envC2 : Env :=
  { appId := "app"
    appSecret := "sec"
    endpoint :=
      { preAuthCodoUrl := fun t => "u-pac/" ++ t
        apiQueryAuthUrl := fun t => "u-qa/" ++ t
        apiAuthorizerToken := fun t => "u-at/" ++ t
        componentAccessTokenUrl := "u-ct"
        fastRegisterWeapp := fun t => "u-frw/" ++ t
        bindTester := fun t => "u-bt/" ++ t
        modifyDomain := fun t => "u-md/" ++ t
        commitCode := fun t => "u-cc/" ++ t
        submitAudit := fun t => "u-sa/" ++ t
        release := fun t => "u-rel/" ++ t
        getWxaCode := fun t => "u-wxa/" ++ t }
    now := 100
    transport := fun _ => ⟨200, [("component_access_token", JVal.s "T1")], none⟩ }

/-- A cached platform-token record whose recorded expiry equals the clock of
`envC2` exactly (both 100). -/
def cObjC2 : JObj :=
  [("component_access_token", JVal.s "T"), ("expires_in", JVal.n 100)]

def stC2 : St := [("CACHE_COMPONENT@@app", cObjC2, 7200)]

/-- Claim C2, counterexample: the cached component-token record has
`expires_in = 100` and the clock reads 100, so `expiresAt ≤ now` holds as the
claim requires; yet `ApiComponentToken` returns the cached token with an
untouched store and an empty outbound trace — zero mint requests, not exactly
one.  The staleness test of the source is the strict `now > expires_in`, so
the boundary case of the claim is wrong. -/
theorem apiComponentToken_boundary_no_mint :
    ApiComponentToken envC2 stC2 = some ⟨("T", none), stC2, []⟩
    ∧ jGet cObjC2 "expires_in" = some (JVal.n 100)
    ∧ envC2.now = 100 := by
  refine ⟨rfl, rfl, rfl⟩

/-- Claim C2, amended: whenever the store has no record under the
component-token key, or the cached record has `now > expires_in` (strictly —
at equality no mint occurs), and the mint POST succeeds with status 200 and a
string `component_access_token`, the resolver issues exactly one outbound
mint request (the trace is the one-element list) and persists a record whose
`expires_in` is the absolute timestamp `now + 7200`, stored with a
7200-second TTL. -/
theorem apiComponentToken_mint_on_miss_or_stale (env : Env) (st : St)
    (t tok : String) (b : JObj)
    (ht : getComponentTicket env st = some t)
    (hresp : env.transport (componentMintReq env t) = ⟨200, b, none⟩)
    (htok : jGet b "component_access_token" = some (JVal.s tok))
    (hstale : stFind st (componentTokenKey env) = none ∨
      ∃ obj ttl e, stFind st (componentTokenKey env) = some (obj, ttl) ∧
        jGet obj "expires_in" = some (JVal.n e) ∧ env.now > e) :
    ApiComponentToken env st =
      some ⟨(tok, none),
            stSetEx st (componentTokenKey env)
              (jSet b "expires_in" (JVal.n (env.now + 7200))) 7200,
            [componentMintReq env t]⟩
    ∧ stFind (stSetEx st (componentTokenKey env)
          (jSet b "expires_in" (JVal.n (env.now + 7200))) 7200)
        (componentTokenKey env) =
        some (jSet b "expires_in" (JVal.n (env.now + 7200)), 7200)
    ∧ jGet (jSet b "expires_in" (JVal.n (env.now + 7200))) "expires_in" =
        some (JVal.n (env.now + 7200)) := by
  refine ⟨?_, stFind_stSetEx_self _ _ _ _, jGet_jSet_self _ _ _⟩
  rcases hstale with hmiss | ⟨obj, ttl, e, hfind, hexp, hgt⟩
  · unfold ApiComponentToken
    rw [hmiss]
    exact componentMint_success env st t tok b ht hresp htok
  · unfold ApiComponentToken
    simp only [hfind, hexp]
    rw [if_pos hgt]
    exact componentMint_success env st t tok b ht hresp htok

/-- Witness for the amended claim C2, on the cache-miss scenario: the store is
empty, the transport answers 200 with token T1, and the resolver issues one
mint request and persists the stamped record. -/
theorem apiComponentToken_mint_on_miss_or_stale_witness :
    ApiComponentToken envC2 [] =
      some ⟨("T1", none),
            stSetEx [] (componentTokenKey envC2)
              (jSet [("component_access_token", JVal.s "T1")] "expires_in"
                (JVal.n (envC2.now + 7200))) 7200,
            [componentMintReq envC2 ""]⟩
    ∧ stFind (stSetEx [] (componentTokenKey envC2)
          (jSet [("component_access_token", JVal.s "T1")] "expires_in"
            (JVal.n (envC2.now + 7200))) 7200)
        (componentTokenKey envC2) =
        some (jSet [("component_access_token", JVal.s "T1")] "expires_in"
          (JVal.n (envC2.now + 7200)), 7200)
    ∧ jGet (jSet [("component_access_token", JVal.s "T1")] "expires_in"
          (JVal.n (envC2.now + 7200))) "expires_in" =
        some (JVal.n (envC2.now + 7200)) :=
  apiComponentToken_mint_on_miss_or_stale envC2 [] ""
    "T1" [("component_access_token", JVal.s "T1")] rfl rfl rfl (Or.inl rfl)

/-! ## Claim C3 -/

def envC3t : Env :=
  { appId := "app"
    appSecret := "sec"
    endpoint :=
      { preAuthCodoUrl := fun t => "u-pac/" ++ t
        apiQueryAuthUrl := fun t => "u-qa/" ++ t
        apiAuthorizerToken := fun t => "u-at/" ++ t
        componentAccessTokenUrl := "u-ct"
        fastRegisterWeapp := fun t => "u-frw/" ++ t
        bindTester := fun t => "u-bt/" ++ t
        modifyDomain := fun t => "u-md/" ++ t
        commitCode := fun t => "u-cc/" ++ t
        submitAudit := fun t => "u-sa/" ++ t
        release := fun t => "u-rel/" ++ t
        getWxaCode := fun t => "u-wxa/" ++ t }
    now := 100
    transport := fun _ => ⟨0, [], some "connection refused"⟩ }

/-- Same world as `envC3t` except the transport succeeds and the platform
answers HTTP 500 with an empty body and a nil transport error. -/
def envC3s : Env :=
  { envC3t with transport := fun _ => ⟨500, [], none⟩ }

def stC3 : St :=
  [("CACHE_TICKET@@app", [("component_verify_ticket", JVal.s "tick")], 0)]

/-- Claim C3, evaluation at the failing input.  First conjunct (the half the
code gets right): on a transport error the mint returns that error with no
cache write.  Second conjunct (the bug): when the transport succeeds but the
status is 500, the source executes `return nil, err` with `err` still nil, so
the mint returns a nil record AND a nil error — the pair `(none, none)` — with
no cache write, contradicting the claim that the non-200 case never returns a
nil error.  Every sibling call site in the file returns a fresh non-nil
network error at a non-200 status; this one is a slip. -/
theorem getRawApiComponentToken_failure_evaluation :
    getRawApiComponentToken envC3t stC3 =
      some ⟨(none, some "connection refused"), stC3, [componentMintReq envC3t "tick"]⟩
    ∧ getRawApiComponentToken envC3s stC3 =
      some ⟨(none, none), stC3, [componentMintReq envC3s "tick"]⟩ := by
  refine ⟨rfl, rfl⟩

/-! ## Claim C4 -/

/-- A fresh cached platform token (strict expiry in the future) is returned
unchanged, with an untouched store and zero outbound requests. -/
theorem apiComponentToken_fresh_aux (env : Env) (st : St) (obj : JObj)
    (ttl e : Int) (tok : String)
    (hfind : stFind st (componentTokenKey env) = some (obj, ttl))
    (hexp : jGet obj "expires_in" = some (JVal.n e))
    (hlt : env.now < e)
    (htok : jGet obj "component_access_token" = some (JVal.s tok)) :
    ApiComponentToken env st = some ⟨(tok, none), st, []⟩ := by
  unfold ApiComponentToken
  simp only [hfind, hexp]
  rw [if_neg (show ¬ env.now > e by omega)]
  simp only [htok]

/-- A fresh cached authorizer record is returned unchanged by `ApiQueryAuth`,
with an untouched store and zero outbound requests. -/
theorem apiQueryAuth_fresh_aux (env : Env) (st : St) (code : String)
    (obj : JObj) (ttl e : Int)
    (hfind : stFind st (authorizerTokenKey env) = some (obj, ttl))
    (hexp : jGet obj "expires_in" = some (JVal.n e))
    (hlt : env.now < e) :
    ApiQueryAuth env st code = some ⟨(some obj, none), st, []⟩ := by
  unfold ApiQueryAuth
  simp only [hfind, hexp]
  rw [if_neg (show ¬ env.now > e by omega)]

/-- Claim C4: for both resolvers, a cached record whose `expires_in` is
strictly greater than the current time is returned unchanged with an
untouched store and an empty outbound trace; consequently a second immediate
invocation of `ApiComponentToken` (on the state the first one returned)
yields the identical result and issues zero outbound requests. -/
theorem resolvers_fresh_cached_no_outbound :
    (∀ (env : Env) (st : St) (obj : JObj) (ttl e : Int) (tok : String),
      stFind st (componentTokenKey env) = some (obj, ttl) →
      jGet obj "expires_in" = some (JVal.n e) →
      env.now < e →
      jGet obj "component_access_token" = some (JVal.s tok) →
      ApiComponentToken env st = some ⟨(tok, none), st, []⟩)
    ∧ (∀ (env : Env) (st : St) (code : String) (obj : JObj) (ttl e : Int),
      stFind st (authorizerTokenKey env) = some (obj, ttl) →
      jGet obj "expires_in" = some (JVal.n e) →
      env.now < e →
      ApiQueryAuth env st code = some ⟨(some obj, none), st, []⟩)
    ∧ (∀ (env : Env) (st : St) (obj : JObj) (ttl e : Int) (tok : String),
      stFind st (componentTokenKey env) = some (obj, ttl) →
      jGet obj "expires_in" = some (JVal.n e) →
      env.now < e →
      jGet obj "component_access_token" = some (JVal.s tok) →
      ∀ eff, ApiComponentToken env st = some eff →
        ApiComponentToken env eff.st = some eff ∧ eff.trace = []) := by
  refine ⟨fun env st obj ttl e tok h1 h2 h3 h4 =>
            apiComponentToken_fresh_aux env st obj ttl e tok h1 h2 h3 h4,
          fun env st code obj ttl e h1 h2 h3 =>
            apiQueryAuth_fresh_aux env st code obj ttl e h1 h2 h3,
          fun env st obj ttl e tok h1 h2 h3 h4 eff heff => ?_⟩
  have ha := apiComponentToken_fresh_aux env st obj ttl e tok h1 h2 h3 h4
  have he : (⟨(tok, none), st, []⟩ : Eff (String × Option String)) = eff :=
    Option.some.inj (ha.symm.trans heff)
  subst he
  exact ⟨ha, rfl⟩

def envC4 : Env :=
  { appId := "app"
    appSecret := "sec"
    endpoint :=
      { preAuthCodoUrl := fun t => "u-pac/" ++ t
        apiQueryAuthUrl := fun t => "u-qa/" ++ t
        apiAuthorizerToken := fun t => "u-at/" ++ t
        componentAccessTokenUrl := "u-ct"
        fastRegisterWeapp := fun t => "u-frw/" ++ t
        bindTester := fun t => "u-bt/" ++ t
        modifyDomain := fun t => "u-md/" ++ t
        commitCode := fun t => "u-cc/" ++ t
        submitAudit := fun t => "u-sa/" ++ t
        release := fun t => "u-rel/" ++ t
        getWxaCode := fun t => "u-wxa/" ++ t }
    now := 100
    transport := fun _ => ⟨0, [], some "transport must not be reached"⟩ }

def cObjC4 : JObj :=
  [("component_access_token", JVal.s "T"), ("expires_in", JVal.n 500)]

def aObjC4 : JObj :=
  [("authorizer_access_token", JVal.s "AT"), ("expires_in", JVal.n 500)]

def stC4 : St :=
  [("CACHE_COMPONENT@@app", cObjC4, 7200),
   ("CACHE_AUTHORIZER_TOKEN@@app", aObjC4, 7200)]

/-- Witness for claim C4, on fresh records (expiry 500, clock 100); the
transport of `envC4` answers only errors, so a nonempty trace could not
produce these results. -/
theorem resolvers_fresh_cached_no_outbound_witness :
    ApiComponentToken envC4 stC4 = some ⟨("T", none), stC4, []⟩
    ∧ ApiQueryAuth envC4 stC4 "c0" = some ⟨(some aObjC4, none), stC4, []⟩
    ∧ ApiComponentToken envC4 stC4 = some ⟨("T", none), stC4, []⟩ :=
  ⟨resolvers_fresh_cached_no_outbound.1 envC4 stC4 cObjC4 7200 500 "T"
      rfl rfl (by decide) rfl,
   resolvers_fresh_cached_no_outbound.2.1 envC4 stC4 "c0" aObjC4 7200 500
      rfl rfl (by decide),
   (resolvers_fresh_cached_no_outbound.2.2 envC4 stC4 cObjC4 7200 500 "T"
      rfl rfl (by decide) rfl ⟨("T", none), stC4, []⟩ rfl).1⟩

/-! ## Claim C5 -/

/-- Claim C5: with a cached authorizer record whose recorded expiry is
`now - 1`, `RefreshToken` resolves a platform token first, then POSTs the
integrator id, tenant id and the supplied refresh token to the
authorizer-refresh endpoint; on a 200 response carrying access token `a2` and
refresh token `r2`, the record persisted under the authorizer-token key is
the old record merged with those two tokens and `expires_in = now + 7200`,
stored with a 7200-second TTL. -/
theorem refreshToken_merges_and_persists (env : Env) (st st1 : St)
    (tr1 : List Req) (aObj b : JObj) (attl : Int)
    (ptok tenant rtok a2 r2 : String)
    (hfind : stFind st (authorizerTokenKey env) = some (aObj, attl))
    (_hexp : jGet aObj "expires_in" = some (JVal.n (env.now - 1)))
    (hA : ApiComponentToken env st = some ⟨(ptok, none), st1, tr1⟩)
    (hresp : env.transport (authorizerTokenReq env ptok tenant rtok) = ⟨200, b, none⟩)
    (ha2 : jGet b "authorizer_access_token" = some (JVal.s a2))
    (hr2 : jGet b "authorizer_refresh_token" = some (JVal.s r2)) :
    ∃ merged,
      merged = jSet (jSet (jSet aObj
          "authorizer_access_token" (jGetD b "authorizer_access_token"))
          "authorizer_refresh_token" (jGetD b "authorizer_refresh_token"))
          "expires_in" (JVal.n (env.now + 7200))
      ∧ RefreshToken env st tenant rtok =
          some ⟨(some b, none),
                stSetEx st1 (authorizerTokenKey env) merged 7200,
                tr1 ++ [authorizerTokenReq env ptok tenant rtok]⟩
      ∧ stFind (stSetEx st1 (authorizerTokenKey env) merged 7200)
          (authorizerTokenKey env) = some (merged, 7200)
      ∧ jGet merged "authorizer_access_token" = some (JVal.s a2)
      ∧ jGet merged "authorizer_refresh_token" = some (JVal.s r2)
      ∧ jGet merged "expires_in" = some (JVal.n (env.now + 7200)) := by
  refine ⟨_, rfl, ?_, stFind_stSetEx_self _ _ _ _, ?_, ?_, jGet_jSet_self _ _ _⟩
  · unfold RefreshToken
    simp only [hfind, hA, hresp]
    rw [if_neg (show ¬ ((200 : Nat) ≠ 200) by decide)]
  · rw [jGet_jSet_ne _ _ _ _ (by decide), jGet_jSet_ne _ _ _ _ (by decide),
      jGet_jSet_self]
    simp [jGetD, ha2]
  · rw [jGet_jSet_ne _ _ _ _ (by decide), jGet_jSet_self]
    simp [jGetD, hr2]

def bC5 : JObj :=
  [("authorizer_access_token", JVal.s "A2"),
   ("authorizer_refresh_token", JVal.s "R2")]

def aObjC5 : JObj :=
  [("authorizer_appid", JVal.s "wx123"),
   ("authorizer_access_token", JVal.s "A1"),
   ("authorizer_refresh_token", JVal.s "R1"),
   ("expires_in", JVal.n 99)]

def envC5 : Env :=
  { appId := "app"
    appSecret := "sec"
    endpoint :=
      { preAuthCodoUrl := fun t => "u-pac/" ++ t
        apiQueryAuthUrl := fun t => "u-qa/" ++ t
        apiAuthorizerToken := fun t => "u-at/" ++ t
        componentAccessTokenUrl := "u-ct"
        fastRegisterWeapp := fun t => "u-frw/" ++ t
        bindTester := fun t => "u-bt/" ++ t
        modifyDomain := fun t => "u-md/" ++ t
        commitCode := fun t => "u-cc/" ++ t
        submitAudit := fun t => "u-sa/" ++ t
        release := fun t => "u-rel/" ++ t
        getWxaCode := fun t => "u-wxa/" ++ t }
    now := 100
    transport := fun r =>
      if r.url = "u-at/T" then ⟨200, bC5, none⟩
      else ⟨0, [], some "unexpected request"⟩ }

def stC5 : St :=
  [("CACHE_COMPONENT@@app",
    [("component_access_token", JVal.s "T"), ("expires_in", JVal.n 500)], 7200),
   ("CACHE_AUTHORIZER_TOKEN@@app", aObjC5, 7200)]

/-- Witness for claim C5: a concrete run with the authorizer record expiring
at 99 against a clock of 100, a fresh cached platform token T, and a 200
refresh response carrying A2 and R2. -/
theorem refreshToken_merges_and_persists_witness :
    ∃ merged,
      merged = jSet (jSet (jSet aObjC5
          "authorizer_access_token" (jGetD bC5 "authorizer_access_token"))
          "authorizer_refresh_token" (jGetD bC5 "authorizer_refresh_token"))
          "expires_in" (JVal.n (envC5.now + 7200))
      ∧ RefreshToken envC5 stC5 "wx123" "R1" =
          some ⟨(some bC5, none),
                stSetEx stC5 (authorizerTokenKey envC5) merged 7200,
                [] ++ [authorizerTokenReq envC5 "T" "wx123" "R1"]⟩
      ∧ stFind (stSetEx stC5 (authorizerTokenKey envC5) merged 7200)
          (authorizerTokenKey envC5) = some (merged, 7200)
      ∧ jGet merged "authorizer_access_token" = some (JVal.s "A2")
      ∧ jGet merged "authorizer_refresh_token" = some (JVal.s "R2")
      ∧ jGet merged "expires_in" = some (JVal.n (envC5.now + 7200)) :=
  refreshToken_merges_and_persists envC5 stC5 stC5 [] aObjC5 bC5 7200
    "T" "wx123" "R1" "A2" "R2" rfl rfl rfl rfl rfl rfl

/-! ## Claim C6 -/

/-- Shared shape of the platform-token gateway operations: a 200 response
whose integer `errcode` is non-zero yields the fixed failure message of the
operation, never success. -/
theorem gatewayOp_errcode_fail (env : Env) (st st1 : St) (tr1 : List Req)
    (urlOf : Endpoint → String → String) (msg : String) (data b : JObj)
    (ptok : String) (c : Int)
    (hA : ApiComponentToken env st = some ⟨(ptok, none), st1, tr1⟩)
    (hresp : env.transport ⟨urlOf env.endpoint ptok, "application/json", data⟩
      = ⟨200, b, none⟩)
    (hc : jGet b "errcode" = some (JVal.n c)) (hcne : c ≠ 0) :
    gatewayOp env st urlOf msg data =
      some ⟨some msg, st1,
            tr1 ++ [⟨urlOf env.endpoint ptok, "application/json", data⟩]⟩ := by
  unfold gatewayOp
  simp only [hA, hresp]
  rw [if_neg (show ¬ ((200 : Nat) ≠ 200) by decide)]
  simp only [hc]
  rw [if_pos hcne]

/-- Same shape for `BindTester`, which consumes the cached authorizer access
token instead of the platform token. -/
theorem bindTester_errcode_fail (env : Env) (st : St) (aObj b : JObj)
    (attl : Int) (atok w : String) (c : Int)
    (hfind : stFind st (authorizerTokenKey env) = some (aObj, attl))
    (htok : jGet aObj "authorizer_access_token" = some (JVal.s atok))
    (hresp : env.transport ⟨env.endpoint.bindTester atok, "application/json",
        [("wechatid", JVal.s w)]⟩ = ⟨200, b, none⟩)
    (hc : jGet b "errcode" = some (JVal.n c)) (hcne : c ≠ 0) :
    BindTester env st w =
      some ⟨some "操作失败", st,
            [⟨env.endpoint.bindTester atok, "application/json",
              [("wechatid", JVal.s w)]⟩]⟩ := by
  unfold BindTester GetToken
  simp only [hfind, htok, hresp]
  rw [if_neg (show ¬ ((200 : Nat) ≠ 200) by decide)]
  simp only [hc]
  rw [if_pos hcne]
  simp

def stC6 : St :=
  [("CACHE_COMPONENT@@app",
    [("component_access_token", JVal.s "T"), ("expires_in", JVal.n 500)], 7200)]

def envC6a : Env :=
  { appId := "app"
    appSecret := "sec"
    endpoint :=
      { preAuthCodoUrl := fun t => "u-pac/" ++ t
        apiQueryAuthUrl := fun t => "u-qa/" ++ t
        apiAuthorizerToken := fun t => "u-at/" ++ t
        componentAccessTokenUrl := "u-ct"
        fastRegisterWeapp := fun t => "u-frw/" ++ t
        bindTester := fun t => "u-bt/" ++ t
        modifyDomain := fun t => "u-md/" ++ t
        commitCode := fun t => "u-cc/" ++ t
        submitAudit := fun t => "u-sa/" ++ t
        release := fun t => "u-rel/" ++ t
        getWxaCode := fun t => "u-wxa/" ++ t }
    now := 100
    transport := fun _ =>
      ⟨200, [("errcode", JVal.n 40001),
             ("errmsg", JVal.s "invalid credential")], none⟩ }

/-- Same world as `envC6a` except the platform reports a different business
error code and message. -/
def envC6b : Env :=
  { envC6a with transport := fun _ =>
      ⟨200, [("errcode", JVal.n 61004),
             ("errmsg", JVal.s "access clientip is not registered")], none⟩ }

/-- Claim C6, counterexample: two runs of `ModifyDomain` that differ only in
the platform business error of the 200 response — codes 40001 versus 61004,
with different messages — both return exactly the same fixed error value,
the generic string 操作失败.  The returned failure is therefore not a
function of the platform code or message and cannot carry them, refuting the
claim that the failure carries the original code and message. -/
theorem modifyDomain_error_not_carrying_code :
    (ModifyDomain envC6a stC6 [("action", JVal.s "set")]).map (fun eff => eff.ret)
      = some (some "操作失败")
    ∧ (ModifyDomain envC6b stC6 [("action", JVal.s "set")]).map (fun eff => eff.ret)
      = some (some "操作失败")
    ∧ (ModifyDomain envC6a stC6 [("action", JVal.s "set")]).map (fun eff => eff.ret)
      = (ModifyDomain envC6b stC6 [("action", JVal.s "set")]).map (fun eff => eff.ret) := by
  refine ⟨rfl, rfl, rfl⟩

/-- Claim C6, amended: for every gateway operation, a 200 response whose
integer `errcode` field is non-zero makes the operation return a non-nil
failure — so it is never mistaken for success — but the failure is the fixed
generic message of the operation (操作失败, or 注册失败 for
`FastRegisterWeapp`) and does not carry the original platform error code or
message. -/
theorem gateway_errcode_generic_failure :
    (∀ (env : Env) (st st1 : St) (tr1 : List Req) (data b : JObj)
        (ptok : String) (c : Int),
      ApiComponentToken env st = some ⟨(ptok, none), st1, tr1⟩ →
      env.transport ⟨env.endpoint.modifyDomain ptok, "application/json", data⟩
        = ⟨200, b, none⟩ →
      jGet b "errcode" = some (JVal.n c) → c ≠ 0 →
      ModifyDomain env st data =
        some ⟨some "操作失败", st1,
              tr1 ++ [⟨env.endpoint.modifyDomain ptok, "application/json", data⟩]⟩)
    ∧ (∀ (env : Env) (st st1 : St) (tr1 : List Req) (data b : JObj)
        (ptok : String) (c : Int),
      ApiComponentToken env st = some ⟨(ptok, none), st1, tr1⟩ →
      env.transport ⟨env.endpoint.commitCode ptok, "application/json", data⟩
        = ⟨200, b, none⟩ →
      jGet b "errcode" = some (JVal.n c) → c ≠ 0 →
      CommitCode env st data =
        some ⟨some "操作失败", st1,
              tr1 ++ [⟨env.endpoint.commitCode ptok, "application/json", data⟩]⟩)
    ∧ (∀ (env : Env) (st st1 : St) (tr1 : List Req) (data b : JObj)
        (ptok : String) (c : Int),
      ApiComponentToken env st = some ⟨(ptok, none), st1, tr1⟩ →
      env.transport ⟨env.endpoint.submitAudit ptok, "application/json", data⟩
        = ⟨200, b, none⟩ →
      jGet b "errcode" = some (JVal.n c) → c ≠ 0 →
      SubmitAudit env st data =
        some ⟨some "操作失败", st1,
              tr1 ++ [⟨env.endpoint.submitAudit ptok, "application/json", data⟩]⟩)
    ∧ (∀ (env : Env) (st st1 : St) (tr1 : List Req) (data b : JObj)
        (ptok : String) (c : Int),
      ApiComponentToken env st = some ⟨(ptok, none), st1, tr1⟩ →
      env.transport ⟨env.endpoint.release ptok, "application/json", data⟩
        = ⟨200, b, none⟩ →
      jGet b "errcode" = some (JVal.n c) → c ≠ 0 →
      Release env st data =
        some ⟨some "操作失败", st1,
              tr1 ++ [⟨env.endpoint.release ptok, "application/json", data⟩]⟩)
    ∧ (∀ (env : Env) (st st1 : St) (tr1 : List Req) (data b : JObj)
        (ptok : String) (c : Int),
      ApiComponentToken env st = some ⟨(ptok, none), st1, tr1⟩ →
      env.transport ⟨env.endpoint.fastRegisterWeapp ptok, "application/json", data⟩
        = ⟨200, b, none⟩ →
      jGet b "errcode" = some (JVal.n c) → c ≠ 0 →
      FastRegisterWeapp env st data =
        some ⟨some "注册失败", st1,
              tr1 ++ [⟨env.endpoint.fastRegisterWeapp ptok, "application/json", data⟩]⟩)
    ∧ (∀ (env : Env) (st : St) (aObj b : JObj) (attl : Int)
        (atok w : String) (c : Int),
      stFind st (authorizerTokenKey env) = some (aObj, attl) →
      jGet aObj "authorizer_access_token" = some (JVal.s atok) →
      env.transport ⟨env.endpoint.bindTester atok, "application/json",
        [("wechatid", JVal.s w)]⟩ = ⟨200, b, none⟩ →
      jGet b "errcode" = some (JVal.n c) → c ≠ 0 →
      BindTester env st w =
        some ⟨some "操作失败", st,
              [⟨env.endpoint.bindTester atok, "application/json",
                [("wechatid", JVal.s w)]⟩]⟩) :=
  ⟨fun env st st1 tr1 data b ptok c hA hr hc hn =>
      gatewayOp_errcode_fail env st st1 tr1 (fun ep => ep.modifyDomain)
        "操作失败" data b ptok c hA hr hc hn,
   fun env st st1 tr1 data b ptok c hA hr hc hn =>
      gatewayOp_errcode_fail env st st1 tr1 (fun ep => ep.commitCode)
        "操作失败" data b ptok c hA hr hc hn,
   fun env st st1 tr1 data b ptok c hA hr hc hn =>
      gatewayOp_errcode_fail env st st1 tr1 (fun ep => ep.submitAudit)
        "操作失败" data b ptok c hA hr hc hn,
   fun env st st1 tr1 data b ptok c hA hr hc hn =>
      gatewayOp_errcode_fail env st st1 tr1 (fun ep => ep.release)
        "操作失败" data b ptok c hA hr hc hn,
   fun env st st1 tr1 data b ptok c hA hr hc hn =>
      gatewayOp_errcode_fail env st st1 tr1 (fun ep => ep.fastRegisterWeapp)
        "注册失败" data b ptok c hA hr hc hn,
   fun env st aObj b attl atok w c hf ht hr hc hn =>
      bindTester_errcode_fail env st aObj b attl atok w c hf ht hr hc hn⟩

def stC6w : St :=
  [("CACHE_COMPONENT@@app",
    [("component_access_token", JVal.s "T"), ("expires_in", JVal.n 500)], 7200),
   ("CACHE_AUTHORIZER_TOKEN@@app",
    [("authorizer_access_token", JVal.s "AT"), ("expires_in", JVal.n 500)], 7200)]

def envC6w : Env :=
  { envC6a with transport := fun _ =>
      ⟨200, [("errcode", JVal.n 7), ("errmsg", JVal.s "boom")], none⟩ }

/-- Witness for the amended claim C6: one concrete world exercising all six
gateway operations against a 200 response with business error code 7. -/
theorem gateway_errcode_generic_failure_witness :
    ModifyDomain envC6w stC6w [("k", JVal.s "v")] =
      some ⟨some "操作失败", stC6w,
            [⟨"u-md/T", "application/json", [("k", JVal.s "v")]⟩]⟩
    ∧ CommitCode envC6w stC6w [("k", JVal.s "v")] =
      some ⟨some "操作失败", stC6w,
            [⟨"u-cc/T", "application/json", [("k", JVal.s "v")]⟩]⟩
    ∧ SubmitAudit envC6w stC6w [("k", JVal.s "v")] =
      some ⟨some "操作失败", stC6w,
            [⟨"u-sa/T", "application/json", [("k", JVal.s "v")]⟩]⟩
    ∧ Release envC6w stC6w [("k", JVal.s "v")] =
      some ⟨some "操作失败", stC6w,
            [⟨"u-rel/T", "application/json", [("k", JVal.s "v")]⟩]⟩
    ∧ FastRegisterWeapp envC6w stC6w [("k", JVal.s "v")] =
      some ⟨some "注册失败", stC6w,
            [⟨"u-frw/T", "application/json", [("k", JVal.s "v")]⟩]⟩
    ∧ BindTester envC6w stC6w "wxid" =
      some ⟨some "操作失败", stC6w,
            [⟨"u-bt/AT", "application/json", [("wechatid", JVal.s "wxid")]⟩]⟩ :=
  ⟨gateway_errcode_generic_failure.1 envC6w stC6w stC6w [] [("k", JVal.s "v")]
      [("errcode", JVal.n 7), ("errmsg", JVal.s "boom")] "T" 7
      rfl rfl rfl (by decide),
   gateway_errcode_generic_failure.2.1 envC6w stC6w stC6w [] [("k", JVal.s "v")]
      [("errcode", JVal.n 7), ("errmsg", JVal.s "boom")] "T" 7
      rfl rfl rfl (by decide),
   gateway_errcode_generic_failure.2.2.1 envC6w stC6w stC6w [] [("k", JVal.s "v")]
      [("errcode", JVal.n 7), ("errmsg", JVal.s "boom")] "T" 7
      rfl rfl rfl (by decide),
   gateway_errcode_generic_failure.2.2.2.1 envC6w stC6w stC6w [] [("k", JVal.s "v")]
      [("errcode", JVal.n 7), ("errmsg", JVal.s "boom")] "T" 7
      rfl rfl rfl (by decide),
   gateway_errcode_generic_failure.2.2.2.2.1 envC6w stC6w stC6w [] [("k", JVal.s "v")]
      [("errcode", JVal.n 7), ("errmsg", JVal.s "boom")] "T" 7
      rfl rfl rfl (by decide),
   gateway_errcode_generic_failure.2.2.2.2.2 envC6w stC6w
      [("authorizer_access_token", JVal.s "AT"), ("expires_in", JVal.n 500)]
      [("errcode", JVal.n 7), ("errmsg", JVal.s "boom")] 7200 "AT" "wxid" 7
      rfl rfl rfl rfl (by decide)⟩

/-! ## Claim C7 -/

/-- Claim C7: `GetAuthUrl` returns the empty string whenever
pre-authorization-code issuance reports an error (its return type has no
error channel at all), and on success returns exactly the consent redirect
URL with the integrator id, the issued code and the redirect URI
query-escaped and the numeric auth type appended. -/
theorem getAuthUrl_spec (env : Env) (st : St) (redirectUri : String)
    (authType : Nat) (eff : Eff (String × Option String))
    (h : ApiCreatePreAuthCode env st = some eff) :
    GetAuthUrl env st redirectUri authType =
      some ⟨(match eff.ret.2 with
             | some _ => ""
             | none =>
               "https://mp.weixin.qq.com/cgi-bin/componentloginpage?component_appid="
                 ++ queryEscape env.appId
                 ++ "&pre_auth_code=" ++ queryEscape eff.ret.1
                 ++ "&redirect_uri=" ++ queryEscape redirectUri
                 ++ "&auth_type=" ++ toString authType),
            eff.st, eff.trace⟩ := by
  unfold GetAuthUrl
  rw [h]
  rcases heff : eff.ret.2 with _ | e
  · simp only [heff]
  · simp only [heff]

def envC7f : Env :=
  { appId := "app"
    appSecret := "sec"
    endpoint :=
      { preAuthCodoUrl := fun t => "u-pac/" ++ t
        apiQueryAuthUrl := fun t => "u-qa/" ++ t
        apiAuthorizerToken := fun t => "u-at/" ++ t
        componentAccessTokenUrl := "u-ct"
        fastRegisterWeapp := fun t => "u-frw/" ++ t
        bindTester := fun t => "u-bt/" ++ t
        modifyDomain := fun t => "u-md/" ++ t
        commitCode := fun t => "u-cc/" ++ t
        submitAudit := fun t => "u-sa/" ++ t
        release := fun t => "u-rel/" ++ t
        getWxaCode := fun t => "u-wxa/" ++ t }
    now := 100
    transport := fun _ => ⟨0, [], some "connection refused"⟩ }

/-- Same world as `envC7f` except the transport answers the mint with token
T1 and the pre-authorization endpoint with the code P C (which must be
escaped to P+C in the redirect URL). -/
def envC7s : Env :=
  { envC7f with transport := fun r =>
      if r.url = "u-ct" then
        ⟨200, [("component_access_token", JVal.s "T1")], none⟩
      else ⟨200, [("pre_auth_code", JVal.s "P C")], none⟩ }

/-- Witness for claim C7: with a failing transport the result is the empty
string; with a succeeding transport it is exactly the formatted, escaped
redirect URL. -/
theorem getAuthUrl_spec_witness :
    (GetAuthUrl envC7f [] "https://cb" 1).map (fun e => e.ret) = some ""
    ∧ (GetAuthUrl envC7s [] "https://cb" 1).map (fun e => e.ret) =
        some ("https://mp.weixin.qq.com/cgi-bin/componentloginpage?component_appid=app&pre_auth_code=P+C&redirect_uri=https%3A%2F%2Fcb&auth_type=1") := by
  constructor
  · rw [getAuthUrl_spec envC7f [] "https://cb" 1
      ⟨("", some "connection refused"), [], [componentMintReq envC7f ""]⟩ rfl]
    rfl
  · rw [getAuthUrl_spec envC7s [] "https://cb" 1
      ⟨("P C", none),
       [("CACHE_COMPONENT@@app",
         [("component_access_token", JVal.s "T1"), ("expires_in", JVal.n 7300)],
         7200)],
       [componentMintReq envC7s "",
        ⟨"u-pac/T1", "application/json", [("component_appid", JVal.s "app")]⟩]⟩ rfl]
    rfl

/-! ## Claim C8 -/

/-- Claim C8: in both resolvers the staleness test is the strict integer
comparison `now > expires_in`: when it holds the resolver enters the mint
branch (`componentMint`, respectively `getRawApiQueryAuth`), and when it
fails — in particular when now equals the recorded expiry — the cached record
is returned with an untouched store and zero outbound requests. -/
theorem staleness_strict_boundary :
    (∀ (env : Env) (st : St) (obj : JObj) (ttl e : Int) (tok : String),
      stFind st (componentTokenKey env) = some (obj, ttl) →
      jGet obj "expires_in" = some (JVal.n e) →
      jGet obj "component_access_token" = some (JVal.s tok) →
      (env.now > e → ApiComponentToken env st = componentMint env st)
      ∧ (¬ env.now > e → ApiComponentToken env st = some ⟨(tok, none), st, []⟩))
    ∧ (∀ (env : Env) (st : St) (code : String) (obj : JObj) (ttl e : Int),
      stFind st (authorizerTokenKey env) = some (obj, ttl) →
      jGet obj "expires_in" = some (JVal.n e) →
      (env.now > e → ApiQueryAuth env st code = getRawApiQueryAuth env st code)
      ∧ (¬ env.now > e → ApiQueryAuth env st code = some ⟨(some obj, none), st, []⟩)) := by
  constructor
  · intro env st obj ttl e tok hfind hexp htok
    constructor
    · intro hgt
      unfold ApiComponentToken
      simp only [hfind, hexp]
      rw [if_pos hgt]
    · intro hle
      unfold ApiComponentToken
      simp only [hfind, hexp]
      rw [if_neg hle]
      simp only [htok]
  · intro env st code obj ttl e hfind hexp
    constructor
    · intro hgt
      unfold ApiQueryAuth
      simp only [hfind, hexp]
      rw [if_pos hgt]
    · intro hle
      unfold ApiQueryAuth
      simp only [hfind, hexp]
      rw [if_neg hle]

def cObjC8 : JObj :=
  [("component_access_token", JVal.s "T"), ("expires_in", JVal.n 100)]

def aObjC8 : JObj :=
  [("authorizer_access_token", JVal.s "AT"), ("expires_in", JVal.n 100)]

def envC8 : Env :=
  { appId := "app"
    appSecret := "sec"
    endpoint :=
      { preAuthCodoUrl := fun t => "u-pac/" ++ t
        apiQueryAuthUrl := fun t => "u-qa/" ++ t
        apiAuthorizerToken := fun t => "u-at/" ++ t
        componentAccessTokenUrl := "u-ct"
        fastRegisterWeapp := fun t => "u-frw/" ++ t
        bindTester := fun t => "u-bt/" ++ t
        modifyDomain := fun t => "u-md/" ++ t
        commitCode := fun t => "u-cc/" ++ t
        submitAudit := fun t => "u-sa/" ++ t
        release := fun t => "u-rel/" ++ t
        getWxaCode := fun t => "u-wxa/" ++ t }
    now := 100
    transport := fun _ => ⟨0, [], some "transport must not be reached"⟩ }

def stC8 : St :=
  [("CACHE_COMPONENT@@app", cObjC8, 7200),
   ("CACHE_AUTHORIZER_TOKEN@@app", aObjC8, 7200)]

/-- Witness for claim C8 at the boundary: both cached records expire at
exactly the current time (100), and both resolvers still return them with no
mint and an empty outbound trace. -/
theorem staleness_strict_boundary_witness :
    ApiComponentToken envC8 stC8 = some ⟨("T", none), stC8, []⟩
    ∧ ApiQueryAuth envC8 stC8 "c0" = some ⟨(some aObjC8, none), stC8, []⟩ :=
  ⟨(staleness_strict_boundary.1 envC8 stC8 cObjC8 7200 100 "T" rfl rfl rfl).2
      (by decide),
   (staleness_strict_boundary.2 envC8 stC8 "c0" aObjC8 7200 100 rfl rfl).2
      (by decide)⟩

/-! ## Claim C9 -/

/-- Claim C9, amended: with no verification-ticket record in the store,
`getComponentTicket` returns the empty string and the mint still proceeds —
its POST body carries the integrator id, the integrator secret and the
empty-string ticket — and a transport-reported failure is surfaced to the
caller; however (see the counterexample) a non-200 upstream status is NOT
surfaced: the mint then returns a nil error. -/
theorem ticket_absent_mint_proceeds :
    (∀ (env : Env) (st : St),
      stFind st (componentTicketKey env) = none →
      getComponentTicket env st = some "")
    ∧ (∀ (env : Env),
      (componentMintReq env "").body =
        [("component_appid", JVal.s env.appId),
         ("component_appsecret", JVal.s env.appSecret),
         ("component_verify_ticket", JVal.s "")])
    ∧ (∀ (env : Env) (st : St) (e : String),
      stFind st (componentTicketKey env) = none →
      (env.transport (componentMintReq env "")).err = some e →
      getRawApiComponentToken env st =
        some ⟨(none, some e), st, [componentMintReq env ""]⟩) := by
  refine ⟨?_, fun env => rfl, ?_⟩
  · intro env st h
    unfold getComponentTicket
    rw [h]
  · intro env st e h herr
    unfold getRawApiComponentToken getComponentTicket
    rw [h]
    simp only [herr]

def envC9 : Env :=
  { appId := "app"
    appSecret := "sec"
    endpoint :=
      { preAuthCodoUrl := fun t => "u-pac/" ++ t
        apiQueryAuthUrl := fun t => "u-qa/" ++ t
        apiAuthorizerToken := fun t => "u-at/" ++ t
        componentAccessTokenUrl := "u-ct"
        fastRegisterWeapp := fun t => "u-frw/" ++ t
        bindTester := fun t => "u-bt/" ++ t
        modifyDomain := fun t => "u-md/" ++ t
        commitCode := fun t => "u-cc/" ++ t
        submitAudit := fun t => "u-sa/" ++ t
        release := fun t => "u-rel/" ++ t
        getWxaCode := fun t => "u-wxa/" ++ t }
    now := 100
    transport := fun _ => ⟨500, [], none⟩ }

/-- Same world as `envC9` except the transport itself fails. -/
def envC9t : Env :=
  { envC9 with transport := fun _ => ⟨0, [], some "dial tcp: connection refused"⟩ }

/-- Claim C9, counterexample: the ticket is absent, the mint proceeds with
the empty-string ticket, the upstream answers HTTP 500 — a mint failure that
the claim says must be surfaced — yet `getRawApiComponentToken` returns a nil
error together with a nil record: the upstream failure is silently swallowed
rather than surfaced to the caller. -/
theorem ticket_absent_upstream_failure_not_surfaced :
    getRawApiComponentToken envC9 [] =
      some ⟨(none, none), [], [componentMintReq envC9 ""]⟩
    ∧ (envC9.transport (componentMintReq envC9 "")).status = 500 := by
  refine ⟨rfl, rfl⟩

/-- Witness for the amended claim C9: ticket absent, mint proceeds, the
transport failure string is surfaced unchanged. -/
theorem ticket_absent_mint_proceeds_witness :
    getComponentTicket envC9t [] = some ""
    ∧ getRawApiComponentToken envC9t [] =
        some ⟨(none, some "dial tcp: connection refused"), [],
              [componentMintReq envC9t ""]⟩ :=
  ⟨ticket_absent_mint_proceeds.1 envC9t [] rfl,
   ticket_absent_mint_proceeds.2.2 envC9t [] "dial tcp: connection refused" rfl rfl⟩

/-! ## Claim C10 -/

/-- Claim C10: `UndoCodeAudit` posts to the endpoint built by
`Endpoint.submitAudit` — the very endpoint `SubmitAudit` posts to — rather
than a distinct audit-withdraw endpoint; with identical payload handling the
two operations coincide on every environment, store and payload. -/
theorem undoCodeAudit_same_endpoint_as_submitAudit :
    ∀ (env : Env) (st : St) (data : JObj),
      UndoCodeAudit env st data = SubmitAudit env st data :=
  fun _ _ _ => rfl

end GoWechat
